import Mathlib

/-!
# Verification of the rustls client handshake core

A shallow embedding of the client-side TLS handshake state machine of
rustls (files `src/builder.rs`, `src/client/hs.rs`, `src/client/tls13.rs`),
together with theorems settling the specification claims about it.

Modelling conventions:
* the transcript hash is modelled as the list of handshake messages hashed
  so far (a perfect-hash abstraction of the external hash primitive);
* secrets and keys are symbolic values recording the key-schedule source and
  the transcript hash they were derived from;
* effects on the record layer (`send_msg`, `send_fatal_alert`,
  `set_message_encrypter`, `set_message_decrypter`, ...) are recorded as an
  ordered event log on the connection context;
* external crypto primitives keep only their functional contract
  (e.g. `constant_time::verify_slices_are_equal` is equality of the
  compared values).
-/

namespace Rustls

/-- Protocol versions (`msgs::enums::ProtocolVersion`, restricted to the
constructors the client core uses). -/
inductive ProtocolVersion where
  | TLSv1_0
  | TLSv1_2
  | TLSv1_3
  | Unknown (n : Nat)
deriving DecidableEq, Repr

/-- Hash algorithm of a cipher suite. -/
inductive HashAlgorithm where
  | SHA256
  | SHA384
deriving DecidableEq, Repr

/-- A TLS 1.3 cipher suite (`suites::Tls13CipherSuite`): an identifier plus
its hash algorithm (the only parts the embedded logic inspects). -/
structure Tls13CipherSuite where
  id : Nat
  hash_alg : HashAlgorithm
deriving DecidableEq, Repr

/-- `suites::SupportedCipherSuite`: either a TLS 1.2 suite or a TLS 1.3 suite. -/
inductive SupportedCipherSuite where
  | Tls12 (id : Nat) (hash_alg : HashAlgorithm)
  | Tls13 (s : Tls13CipherSuite)
deriving DecidableEq, Repr

/-- The wire identifier of a supported cipher suite. -/
def SupportedCipherSuite.suite : SupportedCipherSuite → Nat
  | .Tls12 id _ => id
  | .Tls13 s => s.id

/-- `SupportedCipherSuite::version().version`: protocol version of the suite. -/
def SupportedCipherSuite.version : SupportedCipherSuite → ProtocolVersion
  | .Tls12 _ _ => .TLSv1_2
  | .Tls13 _ => .TLSv1_3

/-- The hash algorithm of a supported cipher suite. -/
def SupportedCipherSuite.get_hash : SupportedCipherSuite → HashAlgorithm
  | .Tls12 _ h => h
  | .Tls13 s => s.hash_alg

/-- `Tls13CipherSuite::can_resume_from`.

Modelled from the spec: the body lives in `suites.rs`, which is not under
`src/`; §4.5 states the constraint "it must be a 1.3 suite that
`can_resume_from` the stored suite (constraint: identical hash algorithm)". -/
def Tls13CipherSuite.can_resume_from (s : Tls13CipherSuite) :
    SupportedCipherSuite → Option Tls13CipherSuite
  | .Tls13 prev => if prev.hash_alg = s.hash_alg then some prev else none
  | .Tls12 _ _ => none

/-- Key exchange groups (`msgs::enums::NamedGroup`). -/
inductive NamedGroup where
  | X25519
  | secp256r1
  | secp384r1
  | Unknown (n : Nat)
deriving DecidableEq, Repr

/-- `versions::EnabledVersions`.

Modelled from the spec: `versions.rs` is not under `src/`; §3 states
"`versions`: enabled set ⊆ {TLS 1.2, TLS 1.3}". -/
structure EnabledVersions where
  tls12 : Bool
  tls13 : Bool
deriving DecidableEq, Repr

/-- `EnabledVersions::contains`: membership in the enabled-version set. -/
def EnabledVersions.contains (v : EnabledVersions) : ProtocolVersion → Bool
  | .TLSv1_2 => v.tls12
  | .TLSv1_3 => v.tls13
  | _ => false

/-- The error type (`error::Error`), restricted to the variants the client
core constructs. -/
inductive Error where
  | PeerMisbehavedError (msg : String)
  | PeerIncompatibleError (msg : String)
  | DecryptError
  | CorruptMessagePayload
  | General (msg : String)
  | FailedToGetRandomBytes
  | HandshakeNotComplete
deriving DecidableEq, Repr

/-- Does the error have the `PeerMisbehavedError` shape? -/
def Error.isPeerMisbehaved : Error → Bool
  | .PeerMisbehavedError _ => true
  | _ => false

/-! ## Configuration builder (`src/builder.rs`) -/

/-- `builder::ConfigWantsPeerType`: the accumulated choices once suites,
KX groups and versions have been picked. -/
structure ConfigWantsPeerType where
  cipher_suites : List SupportedCipherSuite
  kx_groups : List NamedGroup
  versions : EnabledVersions
deriving DecidableEq, Repr

/-- The validated role-specific builder returned by `for_client`
(`client::builder::ConfigWantsServerVerifier`, fields only). -/
structure ConfigWantsServerVerifier where
  cipher_suites : List SupportedCipherSuite
  kx_groups : List NamedGroup
  versions : EnabledVersions
deriving DecidableEq, Repr

/-- The validated role-specific builder returned by `for_server`
(`server::builder::ConfigWantsClientVerifier`, fields only). -/
structure ConfigWantsClientVerifier where
  cipher_suites : List SupportedCipherSuite
  kx_groups : List NamedGroup
  versions : EnabledVersions
deriving DecidableEq, Repr

/-- `ConfigWantsPeerType::validate`: at least one cipher suite must have an
enabled protocol version, and the KX group list must not be empty. -/
def ConfigWantsPeerType.validate (c : ConfigWantsPeerType) : Except Error Unit :=
  let any_usable_suite := c.cipher_suites.any (fun suite => c.versions.contains suite.version)
  if !any_usable_suite then
    .error (.General "no usable cipher suites configured")
  else if c.kx_groups.isEmpty then
    .error (.General "no kx groups configured")
  else
    .ok ()

/-- `ConfigWantsPeerType::for_client`. -/
def ConfigWantsPeerType.for_client (c : ConfigWantsPeerType) :
    Except Error ConfigWantsServerVerifier := do
  c.validate
  .ok { cipher_suites := c.cipher_suites, kx_groups := c.kx_groups, versions := c.versions }

/-- `ConfigWantsPeerType::for_server`. -/
def ConfigWantsPeerType.for_server (c : ConfigWantsPeerType) :
    Except Error ConfigWantsClientVerifier := do
  c.validate
  .ok { cipher_suites := c.cipher_suites, kx_groups := c.kx_groups, versions := c.versions }

/-- Success test for `Except`. -/
def exceptIsOk {ε α : Type} : Except ε α → Bool
  | .ok _ => true
  | .error _ => false

instance instDecidableEqExcept {ε α : Type} [DecidableEq ε] [DecidableEq α] :
    DecidableEq (Except ε α) := fun x y =>
  match x, y with
  | .ok a, .ok b =>
    if h : a = b then .isTrue (by rw [h])
    else .isFalse (fun hc => h (Except.ok.inj hc))
  | .error a, .error b =>
    if h : a = b then .isTrue (by rw [h])
    else .isFalse (fun hc => h (Except.error.inj hc))
  | .ok _, .error _ => .isFalse (fun hc => Except.noConfusion hc)
  | .error _, .ok _ => .isFalse (fun hc => Except.noConfusion hc)

/-! ## Wire-level enumerations and the transcript -/

/-- Extension types appearing in the client core's checks
(`msgs::enums::ExtensionType`, restricted). -/
inductive ExtensionType where
  | SupportedVersions
  | KeyShare
  | PreSharedKey
  | ECPointFormats
  | SessionTicket
  | RenegotiationInfo
  | ExtendedMasterSecret
  | ALProtocolNegotiation
  | EarlyData
  | ServerNameAck
  | StatusRequest
  | SCT
  | Cookie
  | Unknown (n : Nat)
deriving DecidableEq, Repr

/-- Compression methods (`msgs::enums::Compression`). -/
inductive Compression where
  | Null
  | Deflate
  | Unknown (n : Nat)
deriving DecidableEq, Repr

/-- EC point formats (`msgs::enums::ECPointFormat`). -/
inductive ECPointFormat where
  | Uncompressed
  | Other (n : Nat)
deriving DecidableEq, Repr

/-- `msgs::enums::AlertDescription`, restricted to the alerts the client
core emits. -/
inductive AlertDescription where
  | DecodeError
  | IllegalParameter
  | ProtocolVersion
  | HandshakeFailure
  | UnsupportedExtension
  | MissingExtension
  | DecryptError
  | BadCertificate
  | UnexpectedMessage
deriving DecidableEq, Repr

/-- `msgs::enums::KeyUpdateRequest`. -/
inductive KeyUpdateRequest where
  | UpdateNotRequested
  | UpdateRequested
  | Unknown (n : Nat)
deriving DecidableEq, Repr

/-- Handshake messages as they enter the transcript.  The transcript hash is
modelled as the list of messages hashed so far, so two hashing points agree
exactly when the same messages (in the same order) were appended. -/
inductive HsMsg where
  | clientHello
  | serverHello
  | helloRetryRequest
  | encryptedExtensions
  | certificateRequest
  | certificate
  | certificateVerify
  | serverFinished
  | endOfEarlyData
  | clientCertificate
  | clientCertificateVerify
  | clientFinished
  | newSessionTicket
  | keyUpdate
deriving DecidableEq, Repr

/-- A transcript-hash value: the snapshot of the transcript at the hashing
point. -/
abbrev THash := List HsMsg

/-- Where the handshake key schedule's secret input came from:
a resumption Early schedule (identified by the resumption master secret id)
promoted by `KeyScheduleEarly::into_handshake`, or the non-secret branch
(`KeyScheduleNonSecret::new(..).into_handshake`). -/
inductive KsSrc where
  | earlyResumption (id : Nat)
  | nonSecret
deriving DecidableEq, Repr

/-- Symbolic keys handed to the record layer: each records which schedule
stage produced it, the key-schedule source, and the transcript hash it was
derived from (application keys also carry a key-update generation). -/
inductive KeyHandle where
  | serverHandshakeKey (src : KsSrc) (h : THash)
  | clientHandshakeKey (src : KsSrc) (h : THash)
  | clientEarlyKey (id : Nat) (h : THash)
  | serverAppKey (src : KsSrc) (h : THash) (generation : Nat)
  | clientAppKey (src : KsSrc) (h : THash) (generation : Nat)
deriving DecidableEq, Repr

/-- Verify-data values: either raw bytes from the wire, or the value the
key schedule signs over a transcript hash (`sign_server_finish` /
`sign_client_finish`). -/
inductive VerifyData where
  | opaqueBytes (bs : List Nat)
  | serverFinish (src : KsSrc) (h : THash)
  | clientFinish (src : KsSrc) (h : THash)
deriving DecidableEq, Repr

/-- Observable record-layer effects, in emission order
(the record-layer contract of §6). -/
inductive Event where
  | sendAlert (a : AlertDescription)
  | setDecrypter (k : KeyHandle)
  | setEncrypter (k : KeyHandle)
  | sendMsg (m : HsMsg) (encrypted : Bool)
  | sendCcs
  | saveKxHint (g : NamedGroup)
  | startTraffic
deriving DecidableEq, Repr

/-- `client::EarlyData` (in `client/mod.rs`, not under `src/`).

Modelled from the spec: §9 "0-RTT keying split → two independent encrypters
(early, handshake) selected by a single boolean on the context"; `enable`
turns the flag on, `rejected`/`finished` turn it off, `accepted` keeps it on. -/
structure EarlyData where
  enabled : Bool
deriving DecidableEq, Repr

/-- The connection context: `ConnectionCommon` plus `ClientConnectionData`
fields the client core reads or writes, together with the event log. -/
structure Ctx where
  is_quic : Bool
  aligned : Bool
  early_traffic : Bool
  early_data : EarlyData
  sent_tls13_fake_ccs : Bool
  negotiated_version : Option ProtocolVersion
  suite : Option SupportedCipherSuite
  alpn_protocol : Option (List Nat)
  events : List Event
deriving DecidableEq, Repr

/-- Append one record-layer event to the log. -/
def Ctx.emit (cx : Ctx) (e : Event) : Ctx :=
  { cx with events := cx.events ++ [e] }

@[simp] theorem Ctx.emit_is_quic (cx : Ctx) (e : Event) :
    (cx.emit e).is_quic = cx.is_quic := rfl

@[simp] theorem Ctx.emit_aligned (cx : Ctx) (e : Event) :
    (cx.emit e).aligned = cx.aligned := rfl

@[simp] theorem Ctx.emit_early_traffic (cx : Ctx) (e : Event) :
    (cx.emit e).early_traffic = cx.early_traffic := rfl

@[simp] theorem Ctx.emit_early_data (cx : Ctx) (e : Event) :
    (cx.emit e).early_data = cx.early_data := rfl

@[simp] theorem Ctx.emit_sent_tls13_fake_ccs (cx : Ctx) (e : Event) :
    (cx.emit e).sent_tls13_fake_ccs = cx.sent_tls13_fake_ccs := rfl

@[simp] theorem Ctx.emit_events (cx : Ctx) (e : Event) :
    (cx.emit e).events = cx.events ++ [e] := rfl

/-- `ConnectionCommon::send_fatal_alert`. -/
def Ctx.send_fatal_alert (cx : Ctx) (a : AlertDescription) : Ctx :=
  cx.emit (.sendAlert a)

/-- `ConnectionCommon::illegal_param` (in `conn.rs`, not under `src/`).

Modelled from the spec: §6 "Alerts emitted … PeerMisbehaved →
IllegalParameter" — it sends an IllegalParameter fatal alert and returns a
`PeerMisbehavedError` carrying the message. -/
def Ctx.illegal_param (cx : Ctx) (msg : String) : Ctx × Error :=
  (cx.send_fatal_alert .IllegalParameter, .PeerMisbehavedError msg)

/-- `ConnectionCommon::check_aligned_handshake` (in `conn.rs`, not under
`src/`).

Modelled from the spec: §5 "Keying-material transitions happen only at
handshake-message boundaries; the core asserts this via an "aligned
handshake" check before every keying change"; failure is a peer-misbehavior
error.  Whether the check passes is carried as the `aligned` input flag. -/
def Ctx.check_aligned_handshake (cx : Ctx) : Except Error Unit :=
  if cx.aligned then .ok ()
  else .error (.PeerMisbehavedError "key epoch or handshake flight with pending fragment")

/-! ## Key schedule (contract of §6, staged as in `key_schedule.rs`) -/

/-- `KeyScheduleHandshake`: the handshake-stage schedule, recording its
secret source and the transcript hash the handshake traffic secrets were
derived from. -/
structure KeyScheduleHandshake where
  src : KsSrc
  hs_hash : THash
deriving DecidableEq, Repr

/-- `KeyScheduleHandshake::client_key`: the client handshake traffic key. -/
def KeyScheduleHandshake.client_key (ks : KeyScheduleHandshake) : KeyHandle :=
  .clientHandshakeKey ks.src ks.hs_hash

/-- `KeyScheduleHandshake::server_key`: the server handshake traffic key. -/
def KeyScheduleHandshake.server_key (ks : KeyScheduleHandshake) : KeyHandle :=
  .serverHandshakeKey ks.src ks.hs_hash

/-- `KeyScheduleHandshake::sign_server_finish`: the expected server
Finished verify-data over a transcript hash. -/
def KeyScheduleHandshake.sign_server_finish (ks : KeyScheduleHandshake) (h : THash) :
    VerifyData :=
  .serverFinish ks.src h

/-- `KeyScheduleTrafficWithClientFinishedPending`: traffic-stage schedule
before the client Finished is signed; `hash_used` is the transcript hash the
application traffic secrets were derived from. -/
structure KeyScheduleTrafficWithClientFinishedPending where
  src : KsSrc
  hash_used : THash
deriving DecidableEq, Repr

/-- `KeyScheduleHandshake::into_traffic_with_client_finished_pending`:
derive the client/server application traffic secrets from the given
transcript hash. -/
def KeyScheduleHandshake.into_traffic_with_client_finished_pending
    (ks : KeyScheduleHandshake) (h : THash) :
    KeyScheduleTrafficWithClientFinishedPending × KeyHandle × KeyHandle :=
  ({ src := ks.src, hash_used := h }, .clientAppKey ks.src h 0, .serverAppKey ks.src h 0)

/-- `KeyScheduleTraffic`: the post-handshake schedule; the generations count
key updates on each side. -/
structure KeyScheduleTraffic where
  src : KsSrc
  hash_used : THash
  client_generation : Nat
  server_generation : Nat
deriving DecidableEq, Repr

/-- `KeyScheduleTrafficWithClientFinishedPending::sign_client_finish`:
sign the client Finished over a transcript hash and move to the traffic
schedule. -/
def KeyScheduleTrafficWithClientFinishedPending.sign_client_finish
    (ks : KeyScheduleTrafficWithClientFinishedPending) (h : THash) :
    KeyScheduleTraffic × VerifyData :=
  ({ src := ks.src, hash_used := ks.hash_used,
     client_generation := 0, server_generation := 0 },
   .clientFinish ks.src h)

/-- `KeyScheduleTraffic::next_server_application_traffic_secret`. -/
def KeyScheduleTraffic.next_server_application_traffic_secret
    (ks : KeyScheduleTraffic) : KeyScheduleTraffic × KeyHandle :=
  ({ ks with server_generation := ks.server_generation + 1 },
   .serverAppKey ks.src ks.hash_used (ks.server_generation + 1))

/-- `KeyScheduleTraffic::next_client_application_traffic_secret`. -/
def KeyScheduleTraffic.next_client_application_traffic_secret
    (ks : KeyScheduleTraffic) : KeyScheduleTraffic × KeyHandle :=
  ({ ks with client_generation := ks.client_generation + 1 },
   .clientAppKey ks.src ks.hash_used (ks.client_generation + 1))

/-! ## Client configuration and handshake messages -/

/-- `ClientConfig`, restricted to the fields the embedded handlers read. -/
structure ClientConfig where
  cipher_suites : List SupportedCipherSuite
  kx_groups : List NamedGroup
  versions : EnabledVersions
  alpn_protocols : List (List Nat)
  enable_sni : Bool
  enable_tickets : Bool
  enable_early_data : Bool
deriving DecidableEq, Repr

/-- `ClientConfig::supports_version`. -/
def ClientConfig.supports_version (c : ClientConfig) (v : ProtocolVersion) : Bool :=
  c.versions.contains v

/-- `ClientConfig::find_cipher_suite`: look up an offered suite by its wire
identifier. -/
def ClientConfig.find_cipher_suite (c : ClientConfig) (id : Nat) :
    Option SupportedCipherSuite :=
  c.cipher_suites.find? (fun cs => cs.suite = id)

/-- A server key-share entry (`msgs::handshake::KeyShareEntry`): the group,
plus whether completing the ECDH exchange with its payload succeeds
(the functional contract of the external `kx::KeyExchange::complete`). -/
structure KeyShareEntry where
  group : NamedGroup
  kx_ok : Bool
deriving DecidableEq, Repr

/-- `msgs::handshake::ServerHelloPayload`, abstracting the byte-level codec:
the list of extension types (for the duplicate/unsolicited checks) plus the
decoded contents the handlers access. -/
structure ServerHelloPayload where
  legacy_version : ProtocolVersion
  supported_versions : Option ProtocolVersion
  compression_method : Compression
  extension_types : List ExtensionType
  alpn_protocol : Option (List Nat)
  ecpoints : Option (List ECPointFormat)
  cipher_suite : Nat
  psk_index : Option Nat
  key_share : Option KeyShareEntry
deriving DecidableEq, Repr

/-- `has_duplicate_extension`: some extension type occurs twice. -/
def hasDuplicateExtension : List ExtensionType → Bool
  | [] => false
  | t :: rest => rest.contains t || hasDuplicateExtension rest

/-- `ClientHelloDetails::server_sent_unsolicited_extensions`: some received
extension was neither offered nor in the allowed list. -/
def server_sent_unsolicited_extensions (sent_extensions received allowed : List ExtensionType) :
    Bool :=
  received.any (fun t => !sent_extensions.contains t && !allowed.contains t)

/-- The session-cache entry for a resumable session
(`persist::ClientSessionValueWithResolvedCipherSuite`, fields the client
core reads). -/
structure ResumeSession where
  version : ProtocolVersion
  suite : SupportedCipherSuite
  ticket : List Nat
  master_secret_id : Nat
  max_early_data_size : Nat
deriving DecidableEq, Repr

/-- Extensions the client core accepts in a plaintext TLS 1.3 ServerHello
(`ALLOWED_PLAINTEXT_EXTS`). -/
def ALLOWED_PLAINTEXT_EXTS : List ExtensionType :=
  [.KeyShare, .PreSharedKey, .SupportedVersions]

/-- Extensions disallowed in TLS 1.3 EncryptedExtensions
(`DISALLOWED_TLS13_EXTS`). -/
def DISALLOWED_TLS13_EXTS : List ExtensionType :=
  [.ECPointFormats, .SessionTicket, .RenegotiationInfo, .ExtendedMasterSecret]

/-! ## Fake ChangeCipherSpec and ALPN (`client/tls13.rs`, `client/hs.rs`) -/

/-- `tls13::emit_fake_ccs`: send the middlebox-compatibility
ChangeCipherSpec record once per connection, never on QUIC.  The
`sent_tls13_fake_ccs` flag lives on the context. -/
def emit_fake_ccs (cx : Ctx) : Ctx :=
  if cx.is_quic then cx
  else if cx.sent_tls13_fake_ccs then cx
  else { cx.emit .sendCcs with sent_tls13_fake_ccs := true }

/-- `hs::process_alpn_protocol`: record the server-selected ALPN protocol on
the connection; reject one that was not offered. -/
def process_alpn_protocol (cx : Ctx) (config : ClientConfig)
    (proto : Option (List Nat)) : Ctx × Except Error Unit :=
  let cx := { cx with alpn_protocol := proto }
  match cx.alpn_protocol with
  | some alpn_protocol =>
    if !config.alpn_protocols.contains alpn_protocol then
      let (cx, e) := cx.illegal_param "server sent non-offered ALPN protocol"
      (cx, .error e)
    else
      (cx, .ok ())
  | none => (cx, .ok ())

/-! ## TLS 1.3 ServerHello handling (`tls13::handle_server_hello`) -/

/-- The state built on a successful TLS 1.3 ServerHello
(`tls13::ExpectEncryptedExtensions`). -/
structure ExpectEncryptedExtensionsSt where
  config : ClientConfig
  resuming_session : Option ResumeSession
  suite : Tls13CipherSuite
  transcript : THash
  key_schedule : KeyScheduleHandshake
  sent_extensions : List ExtensionType
deriving DecidableEq, Repr

/-- `tls13::validate_server_hello`: a TLS 1.3 ServerHello may carry only the
plaintext-allowed extensions. -/
def validate_server_hello (cx : Ctx) (sh : ServerHelloPayload) : Ctx × Except Error Unit :=
  if sh.extension_types.any (fun t => !ALLOWED_PLAINTEXT_EXTS.contains t) then
    (cx.send_fatal_alert .UnsupportedExtension,
     .error (.PeerMisbehavedError "server sent unexpected cleartext ext"))
  else (cx, .ok ())

/-- Outcome of the PSK-acceptance block of `handle_server_hello`. -/
inductive PskStep where
  | fail (cx : Ctx) (e : Error)
  | accept (cx : Ctx) (src : KsSrc) (resuming : Option ResumeSession)
deriving DecidableEq, Repr

/-- The PSK-acceptance block of `tls13::handle_server_hello`: promote the
Early schedule when the server selected our PSK, otherwise fall back to the
non-secret schedule, dropping early data and the resuming session. -/
def server_hello_psk (cx : Ctx) (sh : ServerHelloPayload)
    (resuming_session : Option ResumeSession) (suite : Tls13CipherSuite)
    (early_key_schedule : Option Nat) : PskStep :=
  match sh.psk_index, early_key_schedule with
  | some selected_psk, some eks =>
    (match resuming_session with
     | some resuming =>
       (match suite.can_resume_from resuming.suite with
        | none =>
          let p := cx.illegal_param "server resuming incompatible suite"
          .fail p.1 p.2
        | some resuming_suite =>
          if cx.early_data.enabled ∧ resuming_suite ≠ suite then
            let p := cx.illegal_param "server varied suite with early data"
            .fail p.1 p.2
          else if selected_psk ≠ 0 then
            let p := cx.illegal_param "server selected invalid psk"
            .fail p.1 p.2
          else
            .accept cx (.earlyResumption eks) resuming_session)
     | none => .fail cx (.PeerMisbehavedError "server selected unoffered psk"))
  | _, _ =>
    let cx := { cx with early_data := ⟨false⟩, early_traffic := false }
    .accept cx .nonSecret none

/-- `tls13::handle_server_hello`: validate the ServerHello, complete the key
exchange, promote the key schedule, derive the handshake traffic secrets
from the current transcript hash, install the server key as decrypter (and
the client key as encrypter when no early data is in flight), and emit the
fake CCS. -/
def handle_server_hello (config : ClientConfig) (cx : Ctx) (sh : ServerHelloPayload)
    (resuming_session : Option ResumeSession) (suite : Tls13CipherSuite)
    (transcript : THash) (early_key_schedule : Option Nat)
    (hello_sent : List ExtensionType) (our_key_share : NamedGroup) :
    Ctx × Except Error ExpectEncryptedExtensionsSt :=
  match validate_server_hello cx sh with
  | (cx, .error e) => (cx, .error e)
  | (cx, .ok ()) =>
    match sh.key_share with
    | none =>
      (cx.send_fatal_alert .MissingExtension,
       .error (.PeerMisbehavedError "missing key share"))
    | some their_key_share =>
      if our_key_share ≠ their_key_share.group then
        let p := cx.illegal_param "wrong group for key share"
        (p.1, .error p.2)
      else if !their_key_share.kx_ok then
        (cx, .error (.PeerMisbehavedError "key exchange failed"))
      else
        match server_hello_psk cx sh resuming_session suite early_key_schedule with
        | .fail cx e => (cx, .error e)
        | .accept cx src resuming_session =>
          let cx := cx.emit (.saveKxHint their_key_share.group)
          match cx.check_aligned_handshake with
          | .error e => (cx, .error e)
          | .ok () =>
            let hash_at_client_recvd_server_hello := transcript
            let key_schedule : KeyScheduleHandshake :=
              { src := src, hs_hash := hash_at_client_recvd_server_hello }
            let cx := cx.emit (.setDecrypter key_schedule.server_key)
            let cx :=
              if !cx.early_data.enabled then
                cx.emit (.setEncrypter key_schedule.client_key)
              else cx
            let cx := emit_fake_ccs cx
            (cx, .ok { config := config, resuming_session := resuming_session,
                       suite := suite, transcript := transcript,
                       key_schedule := key_schedule, sent_extensions := hello_sent })

/-! ## ServerHello processing pre-version-pin (`hs::ExpectServerHello`) -/

/-- `hs::ExpectServerHello` (fields the handler reads). -/
structure ExpectServerHelloSt where
  config : ClientConfig
  resuming_session : Option ResumeSession
  transcript_buffer : List HsMsg
  early_key_schedule : Option Nat
  sent_extensions : List ExtensionType
  offered_key_share : Option NamedGroup
  suite : Option SupportedCipherSuite
deriving DecidableEq, Repr

/-- Successor of `ExpectServerHello::handle`: the TLS 1.3 path or the
hand-off into the (out-of-scope) TLS 1.2 handler. -/
inductive ServerHelloNext where
  | tls13 (st : ExpectEncryptedExtensionsSt)
  | tls12Handoff (suite_id : Nat)
deriving DecidableEq, Repr

/-- Resolve the server-chosen version: when `legacy_version` is TLS 1.2 and
SupportedVersions is present, use its value; otherwise use the legacy
version. -/
def resolve_server_version (sh : ServerHelloPayload) : ProtocolVersion :=
  if sh.legacy_version = .TLSv1_2 then
    sh.supported_versions.getD sh.legacy_version
  else sh.legacy_version

/-- `hs::ExpectServerHello::handle`: the mandatory ServerHello checks of
§4.3, followed by the per-version dispatch.  (The source unwraps
`offered_key_share` in the TLS 1.3 arm; the invariant that a key share is
always offered when TLS 1.3 is enabled makes the `none` fallback
unreachable in a real run.) -/
def ExpectServerHello.handle (st : ExpectServerHelloSt) (cx : Ctx)
    (sh : ServerHelloPayload) : Ctx × Except Error ServerHelloNext :=
  let tls13_supported := st.config.supports_version .TLSv1_3
  let server_version := resolve_server_version sh
  let vres : Ctx × Except Error ProtocolVersion :=
    if server_version = .TLSv1_3 ∧ tls13_supported then (cx, .ok .TLSv1_3)
    else if server_version = .TLSv1_2 ∧ st.config.supports_version .TLSv1_2 then
      if cx.early_data.enabled ∧ cx.early_traffic then
        (cx, .error (.PeerMisbehavedError "server chose v1.2 when offering 0-rtt"))
      else if sh.supported_versions.isSome then
        let p := cx.illegal_param "server chose v1.2 using v1.3 extension"
        (p.1, .error p.2)
      else (cx, .ok .TLSv1_2)
    else
      (cx.send_fatal_alert .ProtocolVersion,
       .error (.PeerIncompatibleError "server does not support TLS v1.2/v1.3"))
  match vres with
  | (cx, .error e) => (cx, .error e)
  | (cx, .ok version) =>
    if sh.compression_method ≠ .Null then
      let p := cx.illegal_param "server chose non-Null compression"
      (p.1, .error p.2)
    else if hasDuplicateExtension sh.extension_types then
      (cx.send_fatal_alert .DecodeError,
       .error (.PeerMisbehavedError "server sent duplicate extensions"))
    else if server_sent_unsolicited_extensions st.sent_extensions sh.extension_types
        [.RenegotiationInfo] then
      (cx.send_fatal_alert .UnsupportedExtension,
       .error (.PeerMisbehavedError "server sent unsolicited extension"))
    else
      let cx := { cx with negotiated_version := some version }
      let alpnStep : Ctx × Except Error Unit :=
        if version ≠ .TLSv1_3 then process_alpn_protocol cx st.config sh.alpn_protocol
        else (cx, .ok ())
      match alpnStep with
      | (cx, .error e) => (cx, .error e)
      | (cx, .ok ()) =>
        let ecpointsBad : Bool :=
          match sh.ecpoints with
          | some point_fmts => !point_fmts.contains .Uncompressed
          | none => false
        if ecpointsBad then
          (cx.send_fatal_alert .HandshakeFailure,
           .error (.PeerMisbehavedError "server does not support uncompressed points"))
        else
          match st.config.find_cipher_suite sh.cipher_suite with
          | none =>
            (cx.send_fatal_alert .HandshakeFailure,
             .error (.PeerMisbehavedError "server chose non-offered ciphersuite"))
          | some suite =>
            if version ≠ suite.version then
              let p := cx.illegal_param "server chose unusable ciphersuite for version"
              (p.1, .error p.2)
            else if (match st.suite with
                     | some prev_suite => decide (prev_suite ≠ suite)
                     | none => false : Bool) then
              let p := cx.illegal_param "server varied selected ciphersuite"
              (p.1, .error p.2)
            else
              let cx := { cx with suite := some suite }
              let transcript := st.transcript_buffer ++ [.serverHello]
              match suite with
              | .Tls13 s =>
                (match st.offered_key_share with
                 | some our_key_share =>
                   (match handle_server_hello st.config cx sh st.resuming_session s
                       transcript st.early_key_schedule st.sent_extensions our_key_share with
                    | (cx, .ok ee) => (cx, .ok (.tls13 ee))
                    | (cx, .error e) => (cx, .error e))
                 | none => (cx, .error (.General "offered key share missing")))
              | .Tls12 id _ => (cx, .ok (.tls12Handoff id))

/-! ## EncryptedExtensions (`tls13::ExpectEncryptedExtensions`) -/

/-- `msgs::handshake::EncryptedExtensions`, abstracting the codec. -/
structure EncryptedExtensionsMsg where
  extension_types : List ExtensionType
  alpn_protocol : Option (List Nat)
deriving DecidableEq, Repr

/-- `HasServerExtensions::early_data_extension_offered`. -/
def EncryptedExtensionsMsg.early_data_extension_offered (m : EncryptedExtensionsMsg) : Bool :=
  m.extension_types.contains .EarlyData

/-- `tls13::validate_encrypted_extensions`: no duplicates, nothing
unsolicited, nothing from the plaintext-only or disallowed-in-1.3 sets. -/
def validate_encrypted_extensions (cx : Ctx) (sent_extensions : List ExtensionType)
    (m : EncryptedExtensionsMsg) : Ctx × Except Error Unit :=
  if hasDuplicateExtension m.extension_types then
    (cx.send_fatal_alert .DecodeError,
     .error (.PeerMisbehavedError "server sent duplicate encrypted extensions"))
  else if server_sent_unsolicited_extensions sent_extensions m.extension_types [] then
    (cx.send_fatal_alert .UnsupportedExtension,
     .error (.PeerMisbehavedError "server sent unsolicited encrypted extension"))
  else if m.extension_types.any
      (fun t => ALLOWED_PLAINTEXT_EXTS.contains t || DISALLOWED_TLS13_EXTS.contains t) then
    (cx.send_fatal_alert .UnsupportedExtension,
     .error (.PeerMisbehavedError "server sent inappropriate encrypted extension"))
  else (cx, .ok ())

/-- `client::common::ClientAuthDetails` (the field `ExpectFinished` reads:
whether a signer was chosen). -/
structure ClientAuthDetails where
  hasSigner : Bool
deriving DecidableEq, Repr

/-- `tls13::ExpectFinished` (fields the handler reads). -/
structure ExpectFinishedSt where
  suite : Tls13CipherSuite
  transcript : THash
  key_schedule : KeyScheduleHandshake
  client_auth : Option ClientAuthDetails
deriving DecidableEq, Repr

/-- `tls13::ExpectCertificateOrCertReq` (fields relevant here). -/
structure ExpectCertificateOrCertReqSt where
  suite : Tls13CipherSuite
  transcript : THash
  key_schedule : KeyScheduleHandshake
deriving DecidableEq, Repr

/-- Successor of `ExpectEncryptedExtensions::handle`. -/
inductive EncryptedExtensionsNext where
  | expectFinished (st : ExpectFinishedSt)
  | expectCertificateOrCertReq (st : ExpectCertificateOrCertReqSt)
deriving DecidableEq, Repr

/-- `tls13::ExpectEncryptedExtensions::handle`: append the message to the
transcript, validate, process ALPN; when resuming, settle early-data
acceptance and go to `ExpectFinished`; otherwise reject a stray early_data
extension and go to certificate processing. -/
def ExpectEncryptedExtensions.handle (st : ExpectEncryptedExtensionsSt) (cx : Ctx)
    (m : EncryptedExtensionsMsg) : Ctx × Except Error EncryptedExtensionsNext :=
  let transcript := st.transcript ++ [.encryptedExtensions]
  match validate_encrypted_extensions cx st.sent_extensions m with
  | (cx, .error e) => (cx, .error e)
  | (cx, .ok ()) =>
    match process_alpn_protocol cx st.config m.alpn_protocol with
    | (cx, .error e) => (cx, .error e)
    | (cx, .ok ()) =>
      match st.resuming_session with
      | some _resuming_session =>
        let was_early_traffic := cx.early_traffic
        let cx :=
          if was_early_traffic then
            if m.early_data_extension_offered then
              cx
            else
              { cx with early_data := ⟨false⟩, early_traffic := false }
          else cx
        let cx :=
          if was_early_traffic ∧ cx.early_traffic = false then
            cx.emit (.setEncrypter st.key_schedule.client_key)
          else cx
        (cx, .ok (.expectFinished { suite := st.suite, transcript := transcript,
                                    key_schedule := st.key_schedule,
                                    client_auth := none }))
      | none =>
        if m.early_data_extension_offered then
          (cx, .error
            (.PeerMisbehavedError "server sent early data extension without resumption"))
        else
          (cx, .ok (.expectCertificateOrCertReq
            { suite := st.suite, transcript := transcript,
              key_schedule := st.key_schedule }))

/-! ## Server Finished (`tls13::ExpectFinished`) -/

/-- `tls13::ExpectTraffic` (fields the handlers read). -/
structure ExpectTrafficSt where
  suite : Tls13CipherSuite
  transcript : THash
  key_schedule : KeyScheduleTraffic
  want_write_key_update : Bool
deriving DecidableEq, Repr

/-- `tls13::ExpectFinished::handle`: verify the server Finished in constant
time (modelled by its functional contract, equality of the verify-data);
append it to the transcript; emit EndOfEarlyData / client auth messages;
move the key schedule to traffic; emit the client Finished; install the
application traffic keys and start user traffic. -/
def ExpectFinished.handle (st : ExpectFinishedSt) (cx : Ctx) (fin : VerifyData) :
    Ctx × Except Error ExpectTrafficSt :=
  let handshake_hash := st.transcript
  let expect_verify_data := st.key_schedule.sign_server_finish handshake_hash
  if fin ≠ expect_verify_data then
    (cx.send_fatal_alert .DecryptError, .error .DecryptError)
  else
    let transcript := st.transcript ++ [.serverFinished]
    let hash_after_handshake := transcript
    let step1 : THash × Ctx :=
      if cx.early_traffic then
        let eoed : THash × Ctx :=
          if cx.is_quic then (transcript, cx)
          else (transcript ++ [.endOfEarlyData], cx.emit (.sendMsg .endOfEarlyData true))
        let cx := { eoed.2 with early_traffic := false, early_data := ⟨false⟩ }
        (eoed.1, cx.emit (.setEncrypter st.key_schedule.client_key))
      else (transcript, cx)
    let step2 : THash × Ctx :=
      match st.client_auth with
      | some client_auth =>
        let transcript := step1.1 ++ [.clientCertificate]
        let cx := step1.2.emit (.sendMsg .clientCertificate true)
        if client_auth.hasSigner then
          (transcript ++ [.clientCertificateVerify],
           cx.emit (.sendMsg .clientCertificateVerify true))
        else (transcript, cx)
      | none => step1
    let derived := st.key_schedule.into_traffic_with_client_finished_pending
      hash_after_handshake
    let key_schedule_finished := derived.1
    let client_key := derived.2.1
    let server_key := derived.2.2
    let handshake_hash := step2.1
    let signed := key_schedule_finished.sign_client_finish handshake_hash
    let key_schedule_traffic := signed.1
    let transcript := step2.1 ++ [.clientFinished]
    let cx := step2.2.emit (.sendMsg .clientFinished true)
    match cx.check_aligned_handshake with
    | .error e => (cx, .error e)
    | .ok () =>
      let cx := cx.emit (.setDecrypter server_key)
      let cx := cx.emit (.setEncrypter client_key)
      let cx := cx.emit .startTraffic
      (cx, .ok { suite := st.suite, transcript := transcript,
                 key_schedule := key_schedule_traffic,
                 want_write_key_update := false })

/-! ## Post-handshake traffic (`tls13::ExpectTraffic`) -/

/-- `tls13::ExpectTraffic::handle_key_update`: must be aligned; on
`UpdateRequested` flag a pending write-side update; always rotate the
server-side read key from `next_server_application_traffic_secret`. -/
def ExpectTraffic.handle_key_update (st : ExpectTrafficSt) (cx : Ctx)
    (kur : KeyUpdateRequest) : ExpectTrafficSt × Ctx × Except Error Unit :=
  if cx.is_quic then
    (st, cx.send_fatal_alert .UnexpectedMessage,
     .error (.PeerMisbehavedError "KeyUpdate received in QUIC connection"))
  else
    match cx.check_aligned_handshake with
    | .error e => (st, cx, .error e)
    | .ok () =>
      let step : ExpectTrafficSt × Ctx × Except Error Unit :=
        match kur with
        | .UpdateNotRequested => (st, cx, .ok ())
        | .UpdateRequested => ({ st with want_write_key_update := true }, cx, .ok ())
        | .Unknown _ =>
          (st, cx.send_fatal_alert .IllegalParameter, .error .CorruptMessagePayload)
      match step with
      | (st, cx, .error e) => (st, cx, .error e)
      | (st, cx, .ok ()) =>
        let rotated := st.key_schedule.next_server_application_traffic_secret
        ({ st with key_schedule := rotated.1 },
         cx.emit (.setDecrypter rotated.2), .ok ())

/-- `tls13::ExpectTraffic::perhaps_write_key_update`: on the next write,
if a key update is pending, emit one KeyUpdate notify message and rotate the
client write key, clearing the pending flag. -/
def ExpectTraffic.perhaps_write_key_update (st : ExpectTrafficSt) (cx : Ctx) :
    ExpectTrafficSt × Ctx :=
  if st.want_write_key_update then
    let st := { st with want_write_key_update := false }
    let cx := cx.emit (.sendMsg .keyUpdate true)
    let rotated := st.key_schedule.next_client_application_traffic_secret
    ({ st with key_schedule := rotated.1 }, cx.emit (.setEncrypter rotated.2))
  else (st, cx)

/-! ## Connection runs for the fake-CCS bound -/

/-- One step of a connection run, for counting fake-CCS emissions: either
one of the `emit_fake_ccs` call sites fires (the retry path, the
early-traffic-secret derivation, or TLS 1.3 ServerHello handling), or the
connection performs some other record-layer action. -/
inductive CcsStep where
  | callFakeCcs
  | otherEvent (e : Event)
deriving DecidableEq, Repr

/-- Run a sequence of steps over the connection context.  `is_quic` and the
`sent_tls13_fake_ccs` threading match the source: the flag is created false
in `start_handshake` and handed from state to state. -/
def runCcsSteps : List CcsStep → Ctx → Ctx
  | [], cx => cx
  | .callFakeCcs :: rest, cx => runCcsSteps rest (emit_fake_ccs cx)
  | .otherEvent e :: rest, cx => runCcsSteps rest (cx.emit e)

/-- Number of ChangeCipherSpec records in an event log. -/
def countCcs (events : List Event) : Nat :=
  events.count .sendCcs

/-! ## Concrete fixtures for witnesses and counterexamples -/

/-- A post-handshake traffic state used by concrete witnesses. -/
def trafficStEx : ExpectTrafficSt :=
  { suite := ⟨4865, .SHA256⟩, transcript := [.clientHello, .serverHello],
    key_schedule := { src := .nonSecret, hash_used := [.clientHello, .serverHello],
                      client_generation := 0, server_generation := 0 },
    want_write_key_update := false }

/-- A quiescent (non-QUIC, aligned, empty-log) context used by concrete
witnesses. -/
def trafficCxEx : Ctx :=
  Ctx.mk false true false ⟨false⟩ true (some .TLSv1_3)
    (some (.Tls13 ⟨4865, .SHA256⟩)) none []

/-- A plain (non-resuming) TLS 1.3 configuration for concrete runs. -/
def plainConfigEx : ClientConfig :=
  { cipher_suites := [.Tls13 ⟨4865, .SHA256⟩], kx_groups := [.X25519],
    versions := { tls12 := true, tls13 := true },
    alpn_protocols := [], enable_sni := true, enable_tickets := true,
    enable_early_data := false }

/-- A well-formed TLS 1.3 ServerHello for concrete runs. -/
def shPlainEx : ServerHelloPayload :=
  { legacy_version := .TLSv1_2, supported_versions := some .TLSv1_3,
    compression_method := .Null,
    extension_types := [.KeyShare, .SupportedVersions],
    alpn_protocol := none, ecpoints := none, cipher_suite := 4865,
    psk_index := none, key_share := some ⟨.X25519, true⟩ }

/-- A fresh connection context (nothing negotiated, empty log). -/
def freshCxEx : Ctx :=
  Ctx.mk false true false ⟨false⟩ false none none none []

/-- The `ExpectEncryptedExtensions` state reached on the concrete run. -/
def eeResultEx : ExpectEncryptedExtensionsSt :=
  { config := plainConfigEx, resuming_session := none, suite := ⟨4865, .SHA256⟩,
    transcript := [.clientHello, .serverHello],
    key_schedule := { src := .nonSecret, hs_hash := [.clientHello, .serverHello] },
    sent_extensions := [.KeyShare, .SupportedVersions] }

/-- A pre-Finished state on the certificate path, used by concrete
witnesses. -/
def finStEx : ExpectFinishedSt :=
  { suite := ⟨4865, .SHA256⟩,
    transcript := [.clientHello, .serverHello, .encryptedExtensions,
                   .certificate, .certificateVerify],
    key_schedule := { src := .nonSecret, hs_hash := [.clientHello, .serverHello] },
    client_auth := none }

/-- A reachable pre-Finished state on the 0-RTT resumption path: early
traffic is in flight, the schedule came from a resumption Early schedule,
no client auth (resumption never requests it). -/
def earlyFinStEx : ExpectFinishedSt :=
  { suite := ⟨4865, .SHA256⟩,
    transcript := [.clientHello, .serverHello, .encryptedExtensions],
    key_schedule := { src := .earlyResumption 7, hs_hash := [.clientHello, .serverHello] },
    client_auth := none }

/-- A context with 0-RTT early traffic in flight on a non-QUIC, aligned
connection. -/
def earlyCxEx : Ctx :=
  Ctx.mk false true true ⟨true⟩ true (some .TLSv1_3)
    (some (.Tls13 ⟨4865, .SHA256⟩)) none []

/-- The matching server Finished verify-data for `earlyFinStEx`. -/
def earlyFinVdEx : VerifyData :=
  .serverFinish (.earlyResumption 7) [.clientHello, .serverHello, .encryptedExtensions]

/-- A concrete `ExpectServerHello` state after the first ClientHello. -/
def shStEx : ExpectServerHelloSt :=
  { config := plainConfigEx, resuming_session := none,
    transcript_buffer := [.clientHello], early_key_schedule := none,
    sent_extensions := [.KeyShare, .SupportedVersions],
    offered_key_share := some .X25519, suite := none }

/-- A ServerHello resolving to an unsupported old protocol version. -/
def shOldEx : ServerHelloPayload :=
  { legacy_version := .TLSv1_0, supported_versions := none,
    compression_method := .Null, extension_types := [],
    alpn_protocol := none, ecpoints := none, cipher_suite := 4865,
    psk_index := none, key_share := none }

/-- A ServerHello carrying a duplicate extension together with a non-Null
compression method. -/
def shDupEx : ServerHelloPayload :=
  { legacy_version := .TLSv1_2, supported_versions := some .TLSv1_3,
    compression_method := .Deflate,
    extension_types := [.KeyShare, .KeyShare, .SupportedVersions],
    alpn_protocol := none, ecpoints := none, cipher_suite := 4865,
    psk_index := none, key_share := some ⟨.X25519, true⟩ }

/-- The duplicate-extension ServerHello with its other fields well formed. -/
def shDupOnlyEx : ServerHelloPayload :=
  { legacy_version := .TLSv1_2, supported_versions := some .TLSv1_3,
    compression_method := .Null,
    extension_types := [.KeyShare, .KeyShare, .SupportedVersions],
    alpn_protocol := none, ecpoints := none, cipher_suite := 4865,
    psk_index := none, key_share := some ⟨.X25519, true⟩ }

/-! # Theorems -/

/-! ## C6: builder validation -/

theorem validate_ok_iff (c : ConfigWantsPeerType) :
    c.validate = .ok () ↔
      ((c.cipher_suites.any (fun suite => c.versions.contains suite.version)) = true
        ∧ c.kx_groups ≠ []) := by
  unfold ConfigWantsPeerType.validate
  constructor
  · intro h
    by_cases hs : (c.cipher_suites.any (fun suite => c.versions.contains suite.version)) = true
    · by_cases hk : c.kx_groups.isEmpty = true
      · simp [hs, hk] at h
      · exact ⟨hs, by simpa using hk⟩
    · simp [hs] at h
  · rintro ⟨hs, hk⟩
    simp [hs, List.isEmpty_iff, hk]

theorem validate_no_usable (c : ConfigWantsPeerType)
    (h : (c.cipher_suites.any (fun suite => c.versions.contains suite.version)) = false) :
    c.validate = .error (.General "no usable cipher suites configured") := by
  unfold ConfigWantsPeerType.validate
  simp [h]

/-- C6: for every accumulated builder configuration, `for_client` (and
`for_server`) succeeds iff some configured cipher suite's protocol version
is among the enabled versions and the kx_groups list is non-empty; when no
cipher suite's version is enabled, the returned error is "no usable cipher
suites configured". -/
theorem builder_validate_iff (c : ConfigWantsPeerType) :
    (exceptIsOk c.for_client = true ↔
      ((∃ s ∈ c.cipher_suites, c.versions.contains s.version = true) ∧ c.kx_groups ≠ []))
    ∧ (exceptIsOk c.for_server = true ↔
      ((∃ s ∈ c.cipher_suites, c.versions.contains s.version = true) ∧ c.kx_groups ≠ []))
    ∧ ((c.cipher_suites.any (fun suite => c.versions.contains suite.version)) = false →
      c.for_client = .error (.General "no usable cipher suites configured")
      ∧ c.for_server = .error (.General "no usable cipher suites configured")) := by
  refine ⟨?_, ?_, ?_⟩
  · unfold ConfigWantsPeerType.for_client
    rcases hv : c.validate with e | u
    · simp only [hv, exceptIsOk]
      constructor
      · intro h; cases h
      · intro h
        have := (validate_ok_iff c).2 ⟨List.any_eq_true.2 (by simpa using h.1), h.2⟩
        rw [hv] at this; cases this
    · cases u
      have h := (validate_ok_iff c).1 hv
      simp only [hv, exceptIsOk]
      constructor
      · intro _
        exact ⟨by simpa using List.any_eq_true.1 h.1, h.2⟩
      · intro _; rfl
  · unfold ConfigWantsPeerType.for_server
    rcases hv : c.validate with e | u
    · simp only [hv, exceptIsOk]
      constructor
      · intro h; cases h
      · intro h
        have := (validate_ok_iff c).2 ⟨List.any_eq_true.2 (by simpa using h.1), h.2⟩
        rw [hv] at this; cases this
    · cases u
      have h := (validate_ok_iff c).1 hv
      simp only [hv, exceptIsOk]
      constructor
      · intro _
        exact ⟨by simpa using List.any_eq_true.1 h.1, h.2⟩
      · intro _; rfl
  · intro h
    have hv := validate_no_usable c h
    unfold ConfigWantsPeerType.for_client ConfigWantsPeerType.for_server
    rw [hv]
    exact ⟨rfl, rfl⟩

/-- Witness for C6 at a concrete configuration: a TLS 1.2-only suite list
with only TLS 1.3 enabled yields the "no usable cipher suites" error. -/
theorem builder_validate_iff_witness :
    ((ConfigWantsPeerType.mk [.Tls12 51 .SHA256] [.X25519] ⟨false, true⟩).cipher_suites.any
        (fun suite =>
          (ConfigWantsPeerType.mk [.Tls12 51 .SHA256] [.X25519] ⟨false, true⟩).versions.contains
            suite.version) = false)
    ∧ (ConfigWantsPeerType.mk [.Tls12 51 .SHA256] [.X25519] ⟨false, true⟩).for_client =
        .error (.General "no usable cipher suites configured") :=
  ⟨by decide,
   ((builder_validate_iff (ConfigWantsPeerType.mk [.Tls12 51 .SHA256] [.X25519]
      ⟨false, true⟩)).2.2 (by decide)).1⟩

/-! ## C9: ALPN protocol selection -/

/-- C9: a server-selected ALPN protocol that was not offered fails the
handshake with an illegal-parameter `PeerMisbehaved` error; an offered one
is recorded as the connection's negotiated ALPN protocol. -/
theorem alpn_protocol_policy (cx : Ctx) (config : ClientConfig) (p : List Nat)
    (hev : cx.events = []) :
    (p ∉ config.alpn_protocols →
      process_alpn_protocol cx config (some p) =
        ({ cx with alpn_protocol := some p,
                   events := [.sendAlert .IllegalParameter] },
         .error (.PeerMisbehavedError "server sent non-offered ALPN protocol")))
    ∧ (p ∈ config.alpn_protocols →
      process_alpn_protocol cx config (some p) =
        ({ cx with alpn_protocol := some p }, .ok ())) := by
  constructor
  · intro h
    simp [process_alpn_protocol, Ctx.illegal_param, Ctx.send_fatal_alert, Ctx.emit, h, hev]
  · intro h
    simp [process_alpn_protocol, h]

/-- Witness for C9: protocol `[104]` is rejected when only `[104, 50]` was
offered, and accepted when `[104]` itself was offered. -/
theorem alpn_protocol_policy_witness :
    ((ClientConfig.mk [] [] ⟨true, true⟩ [[104, 50]] true true false).alpn_protocols.contains
        [104] = false)
    ∧ process_alpn_protocol
        (Ctx.mk false true false ⟨false⟩ false none none none [])
        (ClientConfig.mk [] [] ⟨true, true⟩ [[104, 50]] true true false) (some [104]) =
      ({ Ctx.mk false true false ⟨false⟩ false none none none [] with
           alpn_protocol := some [104],
           events := [.sendAlert .IllegalParameter] },
       .error (.PeerMisbehavedError "server sent non-offered ALPN protocol")) :=
  ⟨by decide,
   (alpn_protocol_policy (Ctx.mk false true false ⟨false⟩ false none none none [])
      (ClientConfig.mk [] [] ⟨true, true⟩ [[104, 50]] true true false) [104] rfl).1
     (by decide)⟩

/-! ## C10: early_data extension without resumption -/

theorem validate_ee_error_misbehaved (cx : Ctx) (sent_extensions : List ExtensionType)
    (m : EncryptedExtensionsMsg) (cx2 : Ctx) (e : Error)
    (h : validate_encrypted_extensions cx sent_extensions m = (cx2, .error e)) :
    ∃ msg, e = .PeerMisbehavedError msg := by
  unfold validate_encrypted_extensions at h
  repeat' split at h
  all_goals simp only [Prod.mk.injEq, Except.error.injEq, Except.ok.injEq] at h
  all_goals first
    | exact ⟨_, h.2.symm⟩
    | exact absurd h.2 (by simp)

theorem alpn_error_misbehaved (cx : Ctx) (config : ClientConfig)
    (proto : Option (List Nat)) (cx2 : Ctx) (e : Error)
    (h : process_alpn_protocol cx config proto = (cx2, .error e)) :
    ∃ msg, e = .PeerMisbehavedError msg := by
  unfold process_alpn_protocol Ctx.illegal_param at h
  cases proto with
  | none => simp_all
  | some p =>
    by_cases hp : p ∈ config.alpn_protocols
    · simp [hp] at h
    · simp [hp] at h
      exact ⟨_, h.2.symm⟩

/-- C10: with no resuming session, an EncryptedExtensions message offering
the early_data extension makes the handshake fail with a `PeerMisbehaved`
error instead of proceeding to certificate processing. -/
theorem earlyData_without_resumption_rejected (st : ExpectEncryptedExtensionsSt)
    (cx : Ctx) (m : EncryptedExtensionsMsg)
    (hres : st.resuming_session = none)
    (hoff : m.early_data_extension_offered = true) :
    ∃ msg, (ExpectEncryptedExtensions.handle st cx m).2 =
      .error (.PeerMisbehavedError msg) := by
  rcases hv : validate_encrypted_extensions cx st.sent_extensions m with ⟨cx1, r1⟩
  cases r1 with
  | error e =>
    obtain ⟨s, rfl⟩ := validate_ee_error_misbehaved _ _ _ _ _ hv
    exact ⟨s, by simp [ExpectEncryptedExtensions.handle, hv]⟩
  | ok u =>
    cases u
    rcases ha : process_alpn_protocol cx1 st.config m.alpn_protocol with ⟨cx2, r2⟩
    cases r2 with
    | error e =>
      obtain ⟨s, rfl⟩ := alpn_error_misbehaved _ _ _ _ _ ha
      exact ⟨s, by simp [ExpectEncryptedExtensions.handle, hv, ha]⟩
    | ok u =>
      cases u
      exact ⟨"server sent early data extension without resumption",
        by simp [ExpectEncryptedExtensions.handle, hv, ha, hres, hoff]⟩

/-! ## C7: fake ChangeCipherSpec at most once, never on QUIC -/

theorem emit_fake_ccs_count (cx : Ctx) :
    countCcs (emit_fake_ccs cx).events =
      countCcs cx.events +
        (if cx.is_quic ∨ cx.sent_tls13_fake_ccs then 0 else 1) := by
  unfold emit_fake_ccs countCcs
  by_cases hq : cx.is_quic
  · simp [hq]
  · by_cases hs : cx.sent_tls13_fake_ccs
    · simp [hq, hs]
    · simp [hq, hs, Ctx.emit, List.count_append]

theorem emit_fake_ccs_is_quic (cx : Ctx) : (emit_fake_ccs cx).is_quic = cx.is_quic := by
  unfold emit_fake_ccs
  by_cases h1 : cx.is_quic
  · simp [h1]
  · by_cases h2 : cx.sent_tls13_fake_ccs <;> simp [h1, h2, Ctx.emit]

theorem emit_fake_ccs_flag (cx : Ctx) :
    (emit_fake_ccs cx).sent_tls13_fake_ccs =
      (if cx.is_quic then cx.sent_tls13_fake_ccs else true) := by
  unfold emit_fake_ccs
  by_cases h1 : cx.is_quic
  · simp [h1]
  · by_cases h2 : cx.sent_tls13_fake_ccs <;> simp [h1, h2, Ctx.emit]

theorem emit_fake_ccs_budget (cx : Ctx) :
    countCcs (emit_fake_ccs cx).events +
        (if (emit_fake_ccs cx).sent_tls13_fake_ccs then 0 else 1) ≤
      countCcs cx.events + (if cx.sent_tls13_fake_ccs then 0 else 1) := by
  rw [emit_fake_ccs_count, emit_fake_ccs_flag]
  by_cases h1 : cx.is_quic <;> by_cases h2 : cx.sent_tls13_fake_ccs <;> simp [h1, h2]

theorem runCcsSteps_count_invariant (steps : List CcsStep) (cx : Ctx)
    (hother : ∀ e, CcsStep.otherEvent e ∈ steps → e ≠ .sendCcs) :
    (countCcs (runCcsSteps steps cx).events ≤
      countCcs cx.events + (if cx.sent_tls13_fake_ccs then 0 else 1))
    ∧ (cx.is_quic = true →
      countCcs (runCcsSteps steps cx).events = countCcs cx.events) := by
  induction steps generalizing cx with
  | nil => simp [runCcsSteps]
  | cons step rest ih =>
    cases step with
    | callFakeCcs =>
      have hrest : ∀ e, CcsStep.otherEvent e ∈ rest → e ≠ .sendCcs := by
        intro e he; exact hother e (List.mem_cons_of_mem _ he)
      have hih := ih (emit_fake_ccs cx) hrest
      have hrun : runCcsSteps (CcsStep.callFakeCcs :: rest) cx =
          runCcsSteps rest (emit_fake_ccs cx) := rfl
      constructor
      · rw [hrun]
        exact le_trans hih.1 (emit_fake_ccs_budget cx)
      · intro h1
        rw [hrun, hih.2 (by rw [emit_fake_ccs_is_quic]; exact h1),
          emit_fake_ccs_count, h1]
        simp
    | otherEvent e =>
      have hrest : ∀ e, CcsStep.otherEvent e ∈ rest → e ≠ .sendCcs := by
        intro x hx; exact hother x (List.mem_cons_of_mem _ hx)
      have hne : e ≠ .sendCcs := hother e (List.mem_cons_self _ _)
      have hcount : countCcs (cx.emit e).events = countCcs cx.events := by
        unfold countCcs Ctx.emit
        rw [List.count_append]
        have hc1 : List.count Event.sendCcs [e] = 0 :=
          List.count_eq_zero.2 (by
            intro hmem
            rw [List.mem_singleton] at hmem
            exact hne hmem.symm)
        rw [hc1]
        omega
      have hflag : (cx.emit e).sent_tls13_fake_ccs = cx.sent_tls13_fake_ccs := rfl
      have hih := ih (cx.emit e) hrest
      have hrun : runCcsSteps (CcsStep.otherEvent e :: rest) cx =
          runCcsSteps rest (cx.emit e) := rfl
      refine ⟨?_, fun h1 => ?_⟩
      · rw [hrun]
        refine le_trans hih.1 ?_
        rw [hcount, hflag]
      · rw [hrun, hih.2 (by exact h1), hcount]

/-- C7: over any run of the connection — any interleaving of `emit_fake_ccs`
call sites and other record-layer actions, starting from the fresh
connection state where `sent_tls13_fake_ccs` is false — at most one fake
ChangeCipherSpec record is sent, and none at all on a QUIC connection. -/
theorem fake_ccs_at_most_once (steps : List CcsStep) (cx : Ctx)
    (h0 : cx.sent_tls13_fake_ccs = false)
    (h1 : countCcs cx.events = 0)
    (hother : ∀ e, CcsStep.otherEvent e ∈ steps → e ≠ .sendCcs) :
    countCcs (runCcsSteps steps cx).events ≤ 1
    ∧ (cx.is_quic = true → countCcs (runCcsSteps steps cx).events = 0) := by
  have h := runCcsSteps_count_invariant steps cx hother
  constructor
  · have := h.1
    rw [h0, h1] at this
    simpa using this
  · intro hq
    rw [h.2 hq, h1]

/-- Witness for C7: three successive fake-CCS call sites with an unrelated
send in between produce exactly one CCS record. -/
theorem fake_ccs_at_most_once_witness :
    countCcs (runCcsSteps
      [.callFakeCcs, .otherEvent (.sendMsg .clientFinished true), .callFakeCcs, .callFakeCcs]
      (Ctx.mk false true false ⟨false⟩ false none none none [])).events ≤ 1
    ∧ ((Ctx.mk false true false ⟨false⟩ false none none none []).is_quic = true →
      countCcs (runCcsSteps
        [.callFakeCcs, .otherEvent (.sendMsg .clientFinished true), .callFakeCcs, .callFakeCcs]
        (Ctx.mk false true false ⟨false⟩ false none none none [])).events = 0) :=
  fake_ccs_at_most_once _ _ rfl rfl (by
    intro e he
    simp only [List.mem_cons, List.not_mem_nil, or_false] at he
    rcases he with h | h | h | h <;> simp_all)

/-! ## C8: KeyUpdate handling -/

/-- C8: `UpdateNotRequested` rotates only the server-side read key and
leaves the client write key untouched; `UpdateRequested` additionally flags
`want_write_key_update`, and the next `perhaps_write_key_update` emits
exactly one KeyUpdate notify, rotates the client write key once, and clears
the flag (so a further write emits nothing). -/
theorem key_update_policy (st : ExpectTrafficSt) (cx : Ctx)
    (hq : cx.is_quic = false) (ha : cx.aligned = true) (hev : cx.events = []) :
    (ExpectTraffic.handle_key_update st cx .UpdateNotRequested =
      ({ st with key_schedule := { st.key_schedule with
            server_generation := st.key_schedule.server_generation + 1 } },
       { cx with events := [.setDecrypter (.serverAppKey st.key_schedule.src
            st.key_schedule.hash_used (st.key_schedule.server_generation + 1))] },
       .ok ()))
    ∧ (ExpectTraffic.handle_key_update st cx .UpdateRequested =
      ({ st with want_write_key_update := true,
                 key_schedule := { st.key_schedule with
            server_generation := st.key_schedule.server_generation + 1 } },
       { cx with events := [.setDecrypter (.serverAppKey st.key_schedule.src
            st.key_schedule.hash_used (st.key_schedule.server_generation + 1))] },
       .ok ()))
    ∧ (∀ (st2 : ExpectTrafficSt) (cx2 : Ctx),
        st2.want_write_key_update = true → cx2.events = [] →
        ExpectTraffic.perhaps_write_key_update st2 cx2 =
          ({ st2 with want_write_key_update := false,
                      key_schedule := { st2.key_schedule with
               client_generation := st2.key_schedule.client_generation + 1 } },
           { cx2 with events := [.sendMsg .keyUpdate true,
               .setEncrypter (.clientAppKey st2.key_schedule.src
                 st2.key_schedule.hash_used (st2.key_schedule.client_generation + 1))] }))
    ∧ (∀ (st2 : ExpectTrafficSt) (cx2 : Ctx),
        st2.want_write_key_update = false →
        ExpectTraffic.perhaps_write_key_update st2 cx2 = (st2, cx2)) := by
  refine ⟨?_, ?_, ?_, ?_⟩
  · simp [ExpectTraffic.handle_key_update, hq, ha, hev, Ctx.check_aligned_handshake,
      KeyScheduleTraffic.next_server_application_traffic_secret, Ctx.emit]
  · simp [ExpectTraffic.handle_key_update, hq, ha, hev, Ctx.check_aligned_handshake,
      KeyScheduleTraffic.next_server_application_traffic_secret, Ctx.emit]
  · intro st2 cx2 hw hev2
    simp [ExpectTraffic.perhaps_write_key_update, hw, hev2,
      KeyScheduleTraffic.next_client_application_traffic_secret, Ctx.emit]
  · intro st2 cx2 hw
    simp [ExpectTraffic.perhaps_write_key_update, hw]

/-- Witness for C8: with no pending write-side update, the next write emits
nothing. -/
theorem key_update_policy_witness :
    trafficCxEx.is_quic = false ∧ trafficCxEx.aligned = true ∧ trafficCxEx.events = []
    ∧ trafficStEx.want_write_key_update = false
    ∧ ExpectTraffic.perhaps_write_key_update trafficStEx trafficCxEx =
        (trafficStEx, trafficCxEx) :=
  ⟨rfl, rfl, rfl, rfl,
   (key_update_policy trafficStEx trafficCxEx rfl rfl rfl).2.2.2 trafficStEx trafficCxEx rfl⟩

/-! ## C3: key installation at ServerHello and EndOfEarlyData -/

theorem server_hello_psk_accept_ctx (cx : Ctx) (sh : ServerHelloPayload)
    (rs : Option ResumeSession) (suite : Tls13CipherSuite) (eks : Option Nat)
    (cx1 : Ctx) (src : KsSrc) (rs1 : Option ResumeSession)
    (h : server_hello_psk cx sh rs suite eks = .accept cx1 src rs1) :
    cx1 = cx ∨ cx1 = { cx with early_data := ⟨false⟩, early_traffic := false } := by
  unfold server_hello_psk at h
  repeat' split at h
  all_goals simp_all

theorem emit_fake_ccs_events (cx : Ctx) :
    (emit_fake_ccs cx).events = cx.events
    ∨ (emit_fake_ccs cx).events = cx.events ++ [.sendCcs] := by
  unfold emit_fake_ccs
  by_cases h1 : cx.is_quic
  · simp [h1]
  · by_cases h2 : cx.sent_tls13_fake_ccs <;> simp [h1, h2, Ctx.emit]

theorem emit_fake_ccs_early_data (cx : Ctx) :
    (emit_fake_ccs cx).early_data = cx.early_data := by
  unfold emit_fake_ccs
  by_cases h1 : cx.is_quic
  · simp [h1]
  · by_cases h2 : cx.sent_tls13_fake_ccs <;> simp [h1, h2, Ctx.emit]

theorem emit_fake_ccs_mem (cx : Ctx) (e : Event) (h : e ∈ cx.events) :
    e ∈ (emit_fake_ccs cx).events := by
  rcases emit_fake_ccs_events cx with hfe | hfe <;> simp [hfe, h]

theorem emit_fake_ccs_not_mem (cx : Ctx) (e : Event) (hne : e ≠ .sendCcs)
    (h : e ∉ cx.events) : e ∉ (emit_fake_ccs cx).events := by
  rcases emit_fake_ccs_events cx with hfe | hfe <;> simp [hfe, h, hne]

/-- C3: on a successful TLS 1.3 ServerHello, the server handshake key is
installed as decrypter unconditionally, and the client handshake key is
installed as encrypter exactly when no 0-RTT early data is in flight
afterwards; when early traffic is still in flight at the server Finished,
EndOfEarlyData is emitted and only then is the client handshake key
installed as encrypter (followed by the client Finished and the
application-traffic keys). -/
theorem serverHello_key_install_policy :
    (∀ (config : ClientConfig) (cx : Ctx) (sh : ServerHelloPayload)
        (rs : Option ResumeSession) (suite : Tls13CipherSuite) (transcript : THash)
        (eks : Option Nat) (sent : List ExtensionType) (okg : NamedGroup)
        (ee : ExpectEncryptedExtensionsSt),
      cx.events = [] →
      (handle_server_hello config cx sh rs suite transcript eks sent okg).2 = .ok ee →
      (Event.setDecrypter (.serverHandshakeKey ee.key_schedule.src transcript)
          ∈ (handle_server_hello config cx sh rs suite transcript eks sent okg).1.events
       ∧ ((handle_server_hello config cx sh rs suite transcript eks sent okg).1.early_data.enabled
            = false →
          Event.setEncrypter (.clientHandshakeKey ee.key_schedule.src transcript)
            ∈ (handle_server_hello config cx sh rs suite transcript eks sent okg).1.events)
       ∧ ((handle_server_hello config cx sh rs suite transcript eks sent okg).1.early_data.enabled
            = true →
          ∀ k, Event.setEncrypter k
            ∉ (handle_server_hello config cx sh rs suite transcript eks sent okg).1.events)))
    ∧ (∀ (st : ExpectFinishedSt) (cx : Ctx),
      cx.early_traffic = true → cx.is_quic = false → cx.aligned = true →
      st.client_auth = none → cx.events = [] →
      (ExpectFinished.handle st cx (st.key_schedule.sign_server_finish st.transcript)).1.events =
        [.sendMsg .endOfEarlyData true,
         .setEncrypter st.key_schedule.client_key,
         .sendMsg .clientFinished true,
         .setDecrypter (.serverAppKey st.key_schedule.src (st.transcript ++ [.serverFinished]) 0),
         .setEncrypter (.clientAppKey st.key_schedule.src (st.transcript ++ [.serverFinished]) 0),
         .startTraffic]) := by
  constructor
  · intro config cx sh rs suite transcript eks sent okg ee hev hok
    rcases hrun : handle_server_hello config cx sh rs suite transcript eks sent okg
      with ⟨outCx, r⟩
    rw [hrun] at hok
    simp only at hok
    subst hok
    unfold handle_server_hello at hrun
    rcases hv : validate_server_hello cx sh with ⟨cxa, rv⟩
    rw [hv] at hrun
    cases rv with
    | error e => simp at hrun
    | ok u =>
      cases u
      have hcxa : cxa = cx := by
        unfold validate_server_hello at hv
        split at hv <;> simp_all
      rw [hcxa] at hrun
      cases hks : sh.key_share with
      | none => rw [hks] at hrun; simp at hrun
      | some tks =>
        rw [hks] at hrun
        simp only [ne_eq, ite_not, Bool.not_eq_true', Ctx.emit_aligned,
          Ctx.emit_early_data] at hrun
        by_cases hg : okg = tks.group
        case neg => rw [if_neg hg] at hrun; simp at hrun
        case pos =>
          rw [if_pos hg] at hrun
          by_cases hkx : tks.kx_ok = false
          · rw [if_pos hkx] at hrun; simp at hrun
          · rw [if_neg hkx] at hrun
            rcases hpsk : server_hello_psk cx sh rs suite eks with ⟨cxf, ef⟩ | ⟨cx1, src, rs1⟩
            · rw [hpsk] at hrun; simp at hrun
            · rw [hpsk] at hrun
              have hev1 : cx1.events = [] := by
                rcases server_hello_psk_accept_ctx _ _ _ _ _ _ _ _ hpsk with h | h <;>
                  simp [h, hev]
              unfold Ctx.check_aligned_handshake at hrun
              simp only [Ctx.emit_aligned, Ctx.emit_early_data] at hrun
              by_cases hal : cx1.aligned = true
              · rw [if_pos hal] at hrun
                simp only [Prod.mk.injEq, Except.ok.injEq] at hrun
                obtain ⟨hout, hee⟩ := hrun
                subst hout
                subst hee
                by_cases hen : cx1.early_data.enabled = false
                · rw [if_pos hen]
                  refine ⟨?_, fun _ => ?_, fun habs k => ?_⟩
                  · exact emit_fake_ccs_mem _ _ (by
                      simp [hev1, KeyScheduleHandshake.server_key])
                  · exact emit_fake_ccs_mem _ _ (by
                      simp [hev1, KeyScheduleHandshake.client_key])
                  · rw [emit_fake_ccs_early_data] at habs
                    simp only [Ctx.emit_early_data] at habs
                    rw [hen] at habs
                    cases habs
                · rw [if_neg hen]
                  refine ⟨?_, fun habs => ?_, fun _ k => ?_⟩
                  · exact emit_fake_ccs_mem _ _ (by
                      simp [hev1, KeyScheduleHandshake.server_key])
                  · exfalso
                    rw [emit_fake_ccs_early_data] at habs
                    simp only [Ctx.emit_early_data] at habs
                    exact hen habs
                  · exact emit_fake_ccs_not_mem _ _ (by simp) (by simp [hev1])
              · rw [if_neg (by simpa using hal)] at hrun
                simp at hrun
  · intro st cx het hq hal hca hev
    simp [ExpectFinished.handle, het, hq, hal, hca, hev, Ctx.emit,
      Ctx.check_aligned_handshake,
      KeyScheduleHandshake.into_traffic_with_client_finished_pending,
      KeyScheduleTrafficWithClientFinishedPending.sign_client_finish]

/-- Witness for C3: a concrete non-0-RTT ServerHello installs the server
handshake decrypter, and a concrete 0-RTT server Finished emits
EndOfEarlyData before installing the client handshake encrypter. -/
theorem serverHello_key_install_policy_witness :
    (freshCxEx.events = []
     ∧ (handle_server_hello plainConfigEx freshCxEx shPlainEx none ⟨4865, .SHA256⟩
          [.clientHello, .serverHello] none [.KeyShare, .SupportedVersions] .X25519).2 =
        .ok eeResultEx
     ∧ Event.setDecrypter (.serverHandshakeKey eeResultEx.key_schedule.src
          [.clientHello, .serverHello])
        ∈ (handle_server_hello plainConfigEx freshCxEx shPlainEx none ⟨4865, .SHA256⟩
            [.clientHello, .serverHello] none [.KeyShare, .SupportedVersions] .X25519).1.events)
    ∧ (earlyCxEx.early_traffic = true ∧ earlyCxEx.is_quic = false
       ∧ earlyCxEx.aligned = true ∧ earlyFinStEx.client_auth = none
       ∧ earlyCxEx.events = []
       ∧ (ExpectFinished.handle earlyFinStEx earlyCxEx
            (earlyFinStEx.key_schedule.sign_server_finish earlyFinStEx.transcript)).1.events =
          [.sendMsg .endOfEarlyData true,
           .setEncrypter earlyFinStEx.key_schedule.client_key,
           .sendMsg .clientFinished true,
           .setDecrypter (.serverAppKey earlyFinStEx.key_schedule.src
              (earlyFinStEx.transcript ++ [.serverFinished]) 0),
           .setEncrypter (.clientAppKey earlyFinStEx.key_schedule.src
              (earlyFinStEx.transcript ++ [.serverFinished]) 0),
           .startTraffic]) :=
  ⟨⟨rfl, by decide,
    (serverHello_key_install_policy.1 plainConfigEx freshCxEx shPlainEx none ⟨4865, .SHA256⟩
      [.clientHello, .serverHello] none [.KeyShare, .SupportedVersions] .X25519 eeResultEx
      rfl (by decide)).1⟩,
   ⟨by decide, by decide, by decide, by decide, by decide,
    serverHello_key_install_policy.2 earlyFinStEx earlyCxEx (by decide) (by decide)
      (by decide) (by decide) (by decide)⟩⟩

/-! ## C1: server Finished verification -/

/-- C1: in `ExpectFinished`, the expected verify-data is recomputed from
the handshake key schedule over the current transcript hash and compared
(constant-time comparison modelled by its functional contract); on mismatch
a DecryptError alert is sent and the DecryptError error returned, with no
other record-layer effect; the Finished message is appended to the
transcript only after the comparison succeeds. -/
theorem expectFinished_verifies_server_finished (st : ExpectFinishedSt) (cx : Ctx)
    (fin : VerifyData) (hev : cx.events = []) :
    (fin ≠ st.key_schedule.sign_server_finish st.transcript →
      ExpectFinished.handle st cx fin =
        ({ cx with events := [.sendAlert .DecryptError] }, .error .DecryptError))
    ∧ (∀ nst, (ExpectFinished.handle st cx fin).2 = .ok nst →
      fin = st.key_schedule.sign_server_finish st.transcript
      ∧ ∃ rest, nst.transcript = st.transcript ++ [.serverFinished] ++ rest) := by
  constructor
  · intro h
    simp [ExpectFinished.handle, h, Ctx.send_fatal_alert, Ctx.emit, hev]
  · intro nst hok
    by_cases h : fin = st.key_schedule.sign_server_finish st.transcript
    · refine ⟨h, ?_⟩
      simp only [ExpectFinished.handle, if_neg (not_not_intro h)] at hok
      repeat' split at hok
      all_goals simp_all
      all_goals rw [← hok]
      all_goals exact ⟨_, rfl⟩
    · exfalso
      simp [ExpectFinished.handle, h] at hok

/-- Witness for C1: wrong verify-data bytes produce the DecryptError alert
and error. -/
theorem expectFinished_verifies_server_finished_witness :
    trafficCxEx.events = []
    ∧ VerifyData.opaqueBytes [0] ≠ finStEx.key_schedule.sign_server_finish finStEx.transcript
    ∧ ExpectFinished.handle finStEx trafficCxEx (.opaqueBytes [0]) =
        ({ trafficCxEx with events := [.sendAlert .DecryptError] }, .error .DecryptError) :=
  ⟨rfl, by decide,
   (expectFinished_verifies_server_finished finStEx trafficCxEx (.opaqueBytes [0]) rfl).1
     (by decide)⟩

/-! ## C2: transcript hash used for the application traffic secrets -/

/-- C2 (amended): on a successful server Finished, the transition to
"traffic with client-finished pending" derives the client and server
application traffic secrets from the transcript hash taken immediately
after the server Finished message is appended — before step 1
(EndOfEarlyData) and step 2 (client Certificate/CertificateVerify) append
their messages. -/
theorem trafficSecrets_use_hash_at_server_finished (st : ExpectFinishedSt) (cx : Ctx)
    (fin : VerifyData) (nst : ExpectTrafficSt)
    (h : (ExpectFinished.handle st cx fin).2 = .ok nst) :
    nst.key_schedule.hash_used = st.transcript ++ [.serverFinished]
    ∧ Event.setDecrypter
        (.serverAppKey st.key_schedule.src (st.transcript ++ [.serverFinished]) 0)
        ∈ (ExpectFinished.handle st cx fin).1.events
    ∧ Event.setEncrypter
        (.clientAppKey st.key_schedule.src (st.transcript ++ [.serverFinished]) 0)
        ∈ (ExpectFinished.handle st cx fin).1.events := by
  rcases hrun : ExpectFinished.handle st cx fin with ⟨outCx, r⟩
  rw [hrun] at h
  simp only at h
  subst h
  by_cases hfin : fin = st.key_schedule.sign_server_finish st.transcript
  · simp only [ExpectFinished.handle, if_neg (not_not_intro hfin)] at hrun
    repeat' split at hrun
    all_goals simp_all [KeyScheduleHandshake.into_traffic_with_client_finished_pending,
      KeyScheduleTrafficWithClientFinishedPending.sign_client_finish, Ctx.emit]
    all_goals obtain ⟨h1, h2⟩ := hrun
    all_goals subst h1
    all_goals subst h2
    all_goals exact ⟨rfl, by simp, by simp⟩
  · simp only [ExpectFinished.handle, if_pos hfin] at hrun
    simp at hrun

/-- Counterexample to C2 as stated: on the 0-RTT path the EndOfEarlyData
message is appended to the transcript by step 1, yet the application
traffic secrets are derived from the hash taken before it — not from the
transcript hash after steps 1 and 2 as the claim says. -/
theorem trafficHash_counterexample :
    ((ExpectFinished.handle earlyFinStEx earlyCxEx earlyFinVdEx).2.map
        (fun nst => nst.transcript) =
      .ok [.clientHello, .serverHello, .encryptedExtensions, .serverFinished,
           .endOfEarlyData, .clientFinished])
    ∧ ((ExpectFinished.handle earlyFinStEx earlyCxEx earlyFinVdEx).2.map
        (fun nst => nst.key_schedule.hash_used) =
      .ok [.clientHello, .serverHello, .encryptedExtensions, .serverFinished])
    ∧ ((ExpectFinished.handle earlyFinStEx earlyCxEx earlyFinVdEx).2.map
        (fun nst => nst.key_schedule.hash_used) ≠
      .ok [.clientHello, .serverHello, .encryptedExtensions, .serverFinished,
           .endOfEarlyData]) :=
  ⟨by decide, by decide, by decide⟩

/-- Witness for C2 (amended) at the 0-RTT input above. -/
theorem trafficSecrets_use_hash_at_server_finished_witness :
    ((ExpectFinished.handle earlyFinStEx earlyCxEx earlyFinVdEx).2 =
      .ok { suite := ⟨4865, .SHA256⟩,
            transcript := [.clientHello, .serverHello, .encryptedExtensions,
                           .serverFinished, .endOfEarlyData, .clientFinished],
            key_schedule :=
              { src := .earlyResumption 7,
                hash_used := [.clientHello, .serverHello, .encryptedExtensions,
                              .serverFinished],
                client_generation := 0, server_generation := 0 },
            want_write_key_update := false })
    ∧ ({ suite := ⟨4865, .SHA256⟩,
         transcript := [.clientHello, .serverHello, .encryptedExtensions,
                        .serverFinished, .endOfEarlyData, .clientFinished],
         key_schedule :=
           { src := .earlyResumption 7,
             hash_used := [.clientHello, .serverHello, .encryptedExtensions,
                           .serverFinished],
             client_generation := 0, server_generation := 0 },
         want_write_key_update := false } : ExpectTrafficSt).key_schedule.hash_used =
        earlyFinStEx.transcript ++ [.serverFinished] :=
  ⟨by decide,
   (trafficSecrets_use_hash_at_server_finished earlyFinStEx earlyCxEx earlyFinVdEx _
     (by decide)).1⟩

/-- Witness for C10: a fresh (non-resuming) connection receiving
EncryptedExtensions that carries early_data. -/
theorem earlyData_without_resumption_rejected_witness :
    (ExpectEncryptedExtensionsSt.mk
        (ClientConfig.mk [] [] ⟨true, true⟩ [] true true false) none
        ⟨4865, .SHA256⟩ [.clientHello, .serverHello]
        ⟨.nonSecret, [.clientHello, .serverHello]⟩
        [.SupportedVersions, .KeyShare, .EarlyData]).resuming_session = none
    ∧ (EncryptedExtensionsMsg.mk [.EarlyData] none).early_data_extension_offered = true
    ∧ ∃ msg, (ExpectEncryptedExtensions.handle
        (ExpectEncryptedExtensionsSt.mk
          (ClientConfig.mk [] [] ⟨true, true⟩ [] true true false) none
          ⟨4865, .SHA256⟩ [.clientHello, .serverHello]
          ⟨.nonSecret, [.clientHello, .serverHello]⟩
          [.SupportedVersions, .KeyShare, .EarlyData])
        (Ctx.mk false true false ⟨false⟩ false none none none [])
        (EncryptedExtensionsMsg.mk [.EarlyData] none)).2 =
      .error (.PeerMisbehavedError msg) :=
  ⟨rfl, rfl,
   earlyData_without_resumption_rejected _ _ _ rfl rfl⟩

/-! ## C4: ServerHello version policy -/

/-- C4: a ServerHello resolving to TLS 1.2 while TLS 1.3 was offered fails
with a fatal error when 0-RTT is in flight, fails with an illegal-parameter
error when the SupportedVersions extension is present; a version that is
neither an enabled TLS 1.2 nor an enabled TLS 1.3 draws a ProtocolVersion
fatal alert and a `PeerIncompatible` error. -/
theorem serverHello_version_policy (st : ExpectServerHelloSt) (cx : Ctx)
    (sh : ServerHelloPayload)
    (hev : cx.events = [])
    (h13 : st.config.supports_version .TLSv1_3 = true) :
    (resolve_server_version sh = .TLSv1_2 →
      st.config.supports_version .TLSv1_2 = true →
      cx.early_data.enabled = true → cx.early_traffic = true →
      ExpectServerHello.handle st cx sh =
        (cx, .error (.PeerMisbehavedError "server chose v1.2 when offering 0-rtt")))
    ∧ (resolve_server_version sh = .TLSv1_2 →
      st.config.supports_version .TLSv1_2 = true →
      ¬(cx.early_data.enabled = true ∧ cx.early_traffic = true) →
      sh.supported_versions.isSome = true →
      ExpectServerHello.handle st cx sh =
        ({ cx with events := [.sendAlert .IllegalParameter] },
         .error (.PeerMisbehavedError "server chose v1.2 using v1.3 extension")))
    ∧ (¬(resolve_server_version sh = .TLSv1_3
          ∧ st.config.supports_version .TLSv1_3 = true) →
      ¬(resolve_server_version sh = .TLSv1_2
          ∧ st.config.supports_version .TLSv1_2 = true) →
      ExpectServerHello.handle st cx sh =
        ({ cx with events := [.sendAlert .ProtocolVersion] },
         .error (.PeerIncompatibleError "server does not support TLS v1.2/v1.3"))) := by
  refine ⟨?_, ?_, ?_⟩
  · intro hv h12 hed het
    simp [ExpectServerHello.handle, hv, h12, hed, het]
  · intro hv h12 hne hsv
    simp [ExpectServerHello.handle, hv, h12, hne, hsv, hev,
      Ctx.illegal_param, Ctx.send_fatal_alert, Ctx.emit]
  · intro hn3 hn2
    simp [ExpectServerHello.handle, hn3, hn2, hev,
      Ctx.send_fatal_alert, Ctx.emit]

/-- Witness for C4: a ServerHello with legacy version TLS 1.0 draws the
ProtocolVersion alert and the `PeerIncompatible` error. -/
theorem serverHello_version_policy_witness :
    freshCxEx.events = []
    ∧ shStEx.config.supports_version .TLSv1_3 = true
    ∧ ¬(resolve_server_version shOldEx = .TLSv1_3
        ∧ shStEx.config.supports_version .TLSv1_3 = true)
    ∧ ¬(resolve_server_version shOldEx = .TLSv1_2
        ∧ shStEx.config.supports_version .TLSv1_2 = true)
    ∧ ExpectServerHello.handle shStEx freshCxEx shOldEx =
        ({ freshCxEx with events := [.sendAlert .ProtocolVersion] },
         .error (.PeerIncompatibleError "server does not support TLS v1.2/v1.3")) :=
  ⟨rfl, by decide, by decide, by decide,
   (serverHello_version_policy shStEx freshCxEx shOldEx rfl (by decide)).2.2
     (by decide) (by decide)⟩

/-! ## C5: duplicate extensions in the ServerHello -/

/-- Counterexample to C5 as stated: a ServerHello that carries a duplicate
extension but also a non-Null compression method draws the (earlier)
IllegalParameter alert, not the DecodeError alert the claim promises for
every duplicate-extension ServerHello. -/
theorem duplicateExt_alert_counterexample :
    hasDuplicateExtension shDupEx.extension_types = true
    ∧ ExpectServerHello.handle shStEx freshCxEx shDupEx =
        ({ freshCxEx with events := [.sendAlert .IllegalParameter] },
         .error (.PeerMisbehavedError "server chose non-Null compression"))
    ∧ Event.sendAlert .DecodeError ∉
        (ExpectServerHello.handle shStEx freshCxEx shDupEx).1.events :=
  ⟨by decide, by decide, by decide⟩

/-- C5 (amended): a ServerHello that passes the earlier version and
compression checks and carries a duplicate extension draws a DecodeError
fatal alert and a `PeerMisbehaved` error, before any cipher suite is
recorded on the connection and before any record-layer key is installed. -/
theorem duplicateExt_decode_error_before_keys (st : ExpectServerHelloSt) (cx : Ctx)
    (sh : ServerHelloPayload)
    (hev : cx.events = [])
    (hver : (resolve_server_version sh = .TLSv1_3
        ∧ st.config.supports_version .TLSv1_3 = true)
      ∨ (resolve_server_version sh = .TLSv1_2
        ∧ st.config.supports_version .TLSv1_2 = true
        ∧ ¬(cx.early_data.enabled = true ∧ cx.early_traffic = true)
        ∧ sh.supported_versions = none))
    (hcomp : sh.compression_method = .Null)
    (hdup : hasDuplicateExtension sh.extension_types = true) :
    ExpectServerHello.handle st cx sh =
      ({ cx with events := [.sendAlert .DecodeError] },
       .error (.PeerMisbehavedError "server sent duplicate extensions"))
    ∧ (ExpectServerHello.handle st cx sh).1.suite = cx.suite
    ∧ ∀ k, Event.setEncrypter k ∉ (ExpectServerHello.handle st cx sh).1.events
         ∧ Event.setDecrypter k ∉ (ExpectServerHello.handle st cx sh).1.events := by
  have hmain : ExpectServerHello.handle st cx sh =
      ({ cx with events := [.sendAlert .DecodeError] },
       .error (.PeerMisbehavedError "server sent duplicate extensions")) := by
    rcases hver with ⟨hv, hs13⟩ | ⟨hv, h12, hne, hsv⟩
    · simp [ExpectServerHello.handle, hv, hs13, hcomp, hdup, hev,
        Ctx.send_fatal_alert, Ctx.emit]
    · simp [ExpectServerHello.handle, hv, h12, hne, hsv, hcomp, hdup, hev,
        Ctx.send_fatal_alert, Ctx.emit]
  refine ⟨hmain, by rw [hmain], fun k => ⟨?_, ?_⟩⟩
  · rw [hmain]; simp
  · rw [hmain]; simp

/-- Witness for C5 (amended): the duplicate-extension ServerHello with Null
compression draws the DecodeError alert and leaves the suite unset. -/
theorem duplicateExt_decode_error_before_keys_witness :
    freshCxEx.events = []
    ∧ shDupOnlyEx.compression_method = .Null
    ∧ hasDuplicateExtension shDupOnlyEx.extension_types = true
    ∧ ExpectServerHello.handle shStEx freshCxEx shDupOnlyEx =
        ({ freshCxEx with events := [.sendAlert .DecodeError] },
         .error (.PeerMisbehavedError "server sent duplicate extensions")) :=
  ⟨rfl, rfl, by decide,
   (duplicateExt_decode_error_before_keys shStEx freshCxEx shDupOnlyEx rfl
     (Or.inl (by decide)) rfl (by decide)).1⟩

end Rustls
